import Mathlib

/-
Verification development for the WebViewEditor component
(src/native/WebViewEditor.h of ambient-labs/vst).

The repository ships only the class declaration (a 41-line header): the
bodies of the constructor, handleSetParameterValueEvent, resized, paint and
getWebViewPtr are not part of the sources.  Definitions below that embed
those bodies are therefore modelled from the specification and are marked
as such in their doc comments.  The preprocessor selection of the
viewContainer member type (lines 32-40 of the header) and the non-static
data member declaration order (lines 30-40) ARE in the sources and are
embedded directly from them.
-/

namespace VstWebView

/-- A structured value as exchanged between the web renderer and native code:
shallow embedding of the tagged key/value structures (choc::value::Value /
ValueView) used by the event channel.  voidVal is the empty value returned
for rejected events. -/
inductive ChocValue where
  | voidVal : ChocValue
  | intVal : Int → ChocValue
  | numVal : ℚ → ChocValue
  | strVal : String → ChocValue
  | objVal : List (String × ChocValue) → ChocValue

/-- Field lookup in a structured value: returns the value stored under key
k when the value is an object containing that key, and none otherwise. -/
def getField (e : ChocValue) (k : String) : Option ChocValue :=
  match e with
  | ChocValue.objVal fs => (fs.find? (fun p => p.1 == k)).map Prod.snd
  | _ => none

/-- Read a structured value as an integer (the wire shape of the id field). -/
def asInt (e : ChocValue) : Option Int :=
  match e with
  | ChocValue.intVal i => some i
  | _ => none

/-- Read a structured value as a number (the wire shape of the value field);
integers coerce to numbers. -/
def asNum (e : ChocValue) : Option ℚ :=
  match e with
  | ChocValue.numVal v => some v
  | ChocValue.intVal i => some (i : ℚ)
  | _ => none

/-- Clamp a number into the normalized parameter range [0,1]. -/
def clamp01 (v : ℚ) : ℚ :=
  if v < 0 then 0 else if 1 < v then 1 else v

/-- Modelled from the spec: the parameter subsystem is an external
collaborator whose implementation is not under src/.  Spec section 6:
setParameterNormalizedValue(index, value) fails silently-by-clamping on an
out-of-range value.  Parameters are modelled as the list of their
normalized values. -/
def setParameterNormalizedValue (ps : List ℚ) (i : Nat) (v : ℚ) : List ℚ :=
  ps.set i (clamp01 v)

/-- Modelled from the spec: decoding step of the set-parameter-value event
(the body of WebViewEditor::handleSetParameterValueEvent is not under src/,
only its declaration at src/native/WebViewEditor.h line 27).  Spec section
4.3: extract a parameter identifier (integer field id) and a numeric value
(field value); decoding fails on a missing identifier, a non-numeric
value, or a wrong event shape. -/
def decodeSetParam (e : ChocValue) : Option (Int × ℚ) :=
  match getField e "id", getField e "value" with
  | some idv, some vv =>
    match asInt idv, asNum vv with
    | some i, some v => some (i, v)
    | _, _ => none
  | _, _ => none

/-- Modelled from the spec: the body of
WebViewEditor::handleSetParameterValueEvent is not under src/ (only its
declaration at src/native/WebViewEditor.h line 27).  Spec section 4.3: on a
decoded identifier and value, validate that the identifier references an
existing parameter of the owning processor; clamp the value rather than
reject it; on success apply the value and return a decoded confirmation
value; on an unknown identifier or structurally invalid input, mutate
nothing and return an empty value. -/
def handleSetParameterValueEvent (ps : List ℚ) (e : ChocValue) :
    List ℚ × ChocValue :=
  match decodeSetParam e with
  | some (i, v) =>
    if 0 ≤ i ∧ i.toNat < ps.length then
      (setParameterNormalizedValue ps i.toNat v, ChocValue.numVal (clamp01 v))
    else (ps, ChocValue.voidVal)
  | none => (ps, ChocValue.voidVal)

/-- The concrete wire shape of a set-parameter-value event (spec section 6):
a tagged value with a type tag, an integer parameter index id, and a
numeric value. -/
def mkSetParameterValueEvent (i : Int) (v : ℚ) : ChocValue :=
  ChocValue.objVal
    [("type", ChocValue.strVal "setParameterValue"),
     ("id", ChocValue.intVal i),
     ("value", ChocValue.numVal v)]

/-- A non-owning handle to the live web renderer instance (choc::ui::WebView),
identified here by the asset directory it was pointed at. -/
structure RendererHandle where
  assetDirectory : String
deriving DecidableEq

/-- An integer rectangle, as used for the container bounds. -/
structure Rect where
  x : Int
  y : Int
  w : Int
  h : Int
deriving DecidableEq

/-- The observable state of a WebViewEditor: the owning processor's
normalized parameter values, the owned renderer instance (some r after a
successful construction), the editor's preferred width and height, the
bounds last pushed to the platform container, and the renderer-visible
state (messages pushed back into the renderer). -/
structure WebViewEditorState where
  params : List ℚ
  webView : Option RendererHandle
  width : Int
  height : Int
  containerBounds : Rect
  rendererState : List ChocValue

/-- The event type tags the constructor registers handlers for
(src/native/WebViewEditor.h registers exactly one event handler,
handleSetParameterValueEvent). -/
def recognizedEventTypes : List String := ["setParameterValue"]

/-- True when the message carries a type tag the editor recognizes. -/
def hasRecognizedType (msg : ChocValue) : Bool :=
  match getField msg "type" with
  | some (ChocValue.strVal t) => recognizedEventTypes.contains t
  | _ => false

/-- Modelled from the spec: the message-dispatch wiring installed by the
constructor is not under src/ (only the constructor declaration at
src/native/WebViewEditor.h line 16).  Spec section 6: a message is routed
by its type tag; an unknown type is ignored, not treated as an error. -/
def dispatchMessage (st : WebViewEditorState) (msg : ChocValue) :
    WebViewEditorState × ChocValue :=
  match getField msg "type" with
  | some (ChocValue.strVal t) =>
    if t = "setParameterValue" then
      let r := handleSetParameterValueEvent st.params msg
      ({ st with params := r.1 }, r.2)
    else (st, ChocValue.voidVal)
  | _ => (st, ChocValue.voidVal)

/-- Modelled from the spec: the body of WebViewEditor::resized is not under
src/ (only its declaration at src/native/WebViewEditor.h line 23).  Spec
section 4.1 OnResize: recompute the full content bounds of the editor and
propagate them to the platform container, so the renderer exactly covers
the editor's client area. -/
def resized (st : WebViewEditorState) : WebViewEditorState :=
  { st with containerBounds := ⟨0, 0, st.width, st.height⟩ }

/-- A host-driven resize: the host layout sets the new size and the editor
reacts through resized. -/
def setSize (st : WebViewEditorState) (w h : Int) : WebViewEditorState :=
  resized { st with width := w, height := h }

/-- The construction failure modes of spec section 7: renderer cannot be
created, asset location invalid, platform container cannot attach. -/
inductive ConstructError where
  | rendererCreationFailed
  | invalidAssetLocation
  | containerAttachFailed
deriving DecidableEq

/-- The environment facts that decide whether construction can succeed:
whether the runtime capability to create a renderer is present, whether
the asset location is valid, and whether the platform container can attach
the foreign handle. -/
structure ConstructEnv where
  rendererAvailable : Bool
  assetLocationValid : Bool
  containerCanAttach : Bool
deriving DecidableEq

/-- Modelled from the spec: the body of the WebViewEditor constructor is not
under src/ (only its declaration at src/native/WebViewEditor.h line 16).
Spec section 4.1 Construct: create the renderer at the asset location,
create the platform container, embed the renderer, set the initial size;
fail as a hard construction error, with all-or-nothing acquisition, when
the renderer cannot be created, the asset location is invalid, or the
container cannot attach. -/
def construct (env : ConstructEnv) (procParams : List ℚ)
    (assetDirectory : String) (width height : Int) :
    Except ConstructError WebViewEditorState :=
  if env.rendererAvailable = false then
    Except.error ConstructError.rendererCreationFailed
  else if env.assetLocationValid = false then
    Except.error ConstructError.invalidAssetLocation
  else if env.containerCanAttach = false then
    Except.error ConstructError.containerAttachFailed
  else
    Except.ok
      { params := procParams
        webView := some ⟨assetDirectory⟩
        width := width
        height := height
        containerBounds := ⟨0, 0, width, height⟩
        rendererState := [] }

/-- Modelled from the spec: the body of WebViewEditor::getWebViewPtr is not
under src/ (only its declaration at src/native/WebViewEditor.h line 19).
Spec section 4.1 GetRenderer: return a non-owning pointer to the live
renderer instance. -/
def getWebViewPtr (st : WebViewEditorState) : Option RendererHandle :=
  st.webView

/-- The two non-static data members holding the owned resources, as declared
in class WebViewEditor (src/native/WebViewEditor.h lines 30-40). -/
inductive Member where
  | webView
  | viewContainer
deriving DecidableEq

/-- Embedded from src/native/WebViewEditor.h lines 30-40: webView is
declared before viewContainer on every platform branch. -/
def memberDeclOrder : List Member := [Member.webView, Member.viewContainer]

/-- C++ object semantics: the (implicitly defaulted) destructor destroys
non-static data members in reverse declaration order. -/
def memberDestructionOrder : List Member := memberDeclOrder.reverse

/-- The lifecycle wrapper of an editor: whether the editor is still alive,
and its state.  Destruction is synchronous, so messages are only delivered
while the editor is alive. -/
structure EditorLifecycle where
  alive : Bool
  editor : WebViewEditorState

/-- Modelled from the spec: destruction (spec section 5) synchronously tears
down the renderer and the container before returning; after it, the editor
is no longer alive and owns no renderer. -/
def destroyEditor (l : EditorLifecycle) : EditorLifecycle :=
  { alive := false, editor := { l.editor with webView := none } }

/-- Modelled from the spec: message delivery stops at destruction (spec
section 5: stop message delivery first); a message reaching a destroyed
editor is not dispatched. -/
def deliverMessage (l : EditorLifecycle) (msg : ChocValue) : EditorLifecycle :=
  if l.alive then { l with editor := (dispatchMessage l.editor msg).1 } else l

/-- The build-target operating systems distinguished by the preprocessor
conditionals of src/native/WebViewEditor.h lines 32-40: JUCE_MAC,
JUCE_WINDOWS, JUCE_LINUX, and any other target. -/
inductive TargetOS where
  | macOS
  | windows
  | linux
  | other
deriving DecidableEq

/-- The three platform container member types appearing in
src/native/WebViewEditor.h lines 33, 35 and 37. -/
inductive ContainerKind where
  | nsViewComponent
  | hwndComponent
  | xEmbedComponent
deriving DecidableEq

/-- Embedded from src/native/WebViewEditor.h lines 32-40: the preprocessor
selects the type of the viewContainer member from the build-target
operating system; on any other target the branch is an explicit
compile-time error (no member type exists), modelled as none. -/
def selectContainer (os : TargetOS) : Option ContainerKind :=
  match os with
  | TargetOS.macOS => some ContainerKind.nsViewComponent
  | TargetOS.windows => some ContainerKind.hwndComponent
  | TargetOS.linux => some ContainerKind.xEmbedComponent
  | TargetOS.other => none

/-- A concrete editor state used to instantiate closed statements. -/
def sampleState : WebViewEditorState :=
  { params := [1/2]
    webView := some ⟨"assets"⟩
    width := 640
    height := 480
    containerBounds := ⟨0, 0, 640, 480⟩
    rendererState := [] }

theorem clamp01_nonneg (v : ℚ) : 0 ≤ clamp01 v := by
  unfold clamp01
  split
  · exact le_refl 0
  · split
    · exact zero_le_one
    · rename_i h1 h2
      exact le_of_not_lt h1

theorem clamp01_le_one (v : ℚ) : clamp01 v ≤ 1 := by
  unfold clamp01
  split
  · exact zero_le_one
  · split
    · exact le_refl 1
    · rename_i h1 h2
      exact le_of_not_lt h2

theorem clamp01_of_mem (v : ℚ) (h0 : 0 ≤ v) (h1 : v ≤ 1) : clamp01 v = v := by
  unfold clamp01
  rw [if_neg (not_lt.mpr h0), if_neg (not_lt.mpr h1)]

theorem decodeSetParam_mk (i : Int) (v : ℚ) :
    decodeSetParam (mkSetParameterValueEvent i v) = some (i, v) := rfl

theorem handleSetParameterValueEvent_valid (ps : List ℚ) (e : ChocValue)
    (i : Int) (v : ℚ) (hd : decodeSetParam e = some (i, v)) (h0 : 0 ≤ i)
    (hlen : i.toNat < ps.length) :
    handleSetParameterValueEvent ps e =
      (ps.set i.toNat (clamp01 v), ChocValue.numVal (clamp01 v)) := by
  simp [handleSetParameterValueEvent, hd, h0, hlen, setParameterNormalizedValue]

/-- Claim C1: for every valid parameter index i of the owning processor and
every value v in [0,1], handling a setParameterValue event with id i and
value v results in the parameter subsystem reporting normalized value v
for parameter i afterward, and the handler returns a decoded confirmation
value (not the empty value). -/
theorem setParameterValue_roundtrip (ps : List ℚ) (i : Nat) (v : ℚ)
    (hi : i < ps.length) (h0 : 0 ≤ v) (h1 : v ≤ 1) :
    (handleSetParameterValueEvent ps (mkSetParameterValueEvent i v)).1[i]? =
      some v ∧
    (handleSetParameterValueEvent ps (mkSetParameterValueEvent i v)).2 =
      ChocValue.numVal v := by
  have hlen : (i : Int).toNat < ps.length := by simpa using hi
  have hv : clamp01 v = v := clamp01_of_mem v h0 h1
  rw [handleSetParameterValueEvent_valid ps _ i v (decodeSetParam_mk i v)
    (Int.ofNat_nonneg i) hlen]
  constructor
  · rw [hv]
    have hnat : (i : Int).toNat = i := Int.toNat_ofNat i
    rw [hnat]
    exact List.getElem?_set_eq_of_lt v hi
  · rw [hv]

theorem setParameterValue_roundtrip_witness :
    (handleSetParameterValueEvent [0, 1/2]
        (mkSetParameterValueEvent 1 (3/4))).1[1]? = some (3/4) ∧
    (handleSetParameterValueEvent [0, 1/2]
        (mkSetParameterValueEvent 1 (3/4))).2 = ChocValue.numVal (3/4) :=
  setParameterValue_roundtrip [0, 1/2] 1 (3/4) (by decide) (by norm_num)
    (by norm_num)

/-- Claim C2: for every valid parameter index i and every value v outside
[0,1], handling a setParameterValue event with id i and value v stores a
value clamped into [0,1] for parameter i, and no fault is raised: the
handler returns a normal confirmation value. -/
theorem setParameterValue_clamps (ps : List ℚ) (i : Nat) (v : ℚ)
    (hi : i < ps.length) (_hv : v < 0 ∨ 1 < v) :
    (handleSetParameterValueEvent ps (mkSetParameterValueEvent i v)).1[i]? =
      some (clamp01 v) ∧
    0 ≤ clamp01 v ∧ clamp01 v ≤ 1 ∧
    (handleSetParameterValueEvent ps (mkSetParameterValueEvent i v)).2 =
      ChocValue.numVal (clamp01 v) := by
  have hlen : (i : Int).toNat < ps.length := by simpa using hi
  rw [handleSetParameterValueEvent_valid ps _ i v (decodeSetParam_mk i v)
    (Int.ofNat_nonneg i) hlen]
  refine ⟨?_, clamp01_nonneg v, clamp01_le_one v, rfl⟩
  have hnat : (i : Int).toNat = i := Int.toNat_ofNat i
  rw [hnat]
  exact List.getElem?_set_eq_of_lt (clamp01 v) hi

theorem setParameterValue_clamps_witness :
    (handleSetParameterValueEvent [0]
        (mkSetParameterValueEvent 0 2)).1[0]? = some (clamp01 2) ∧
    0 ≤ clamp01 2 ∧ clamp01 2 ≤ 1 ∧
    (handleSetParameterValueEvent [0]
        (mkSetParameterValueEvent 0 2)).2 = ChocValue.numVal (clamp01 2) :=
  setParameterValue_clamps [0] 0 2 (by decide) (Or.inr (by norm_num))

/-- Claim C3: for every incoming setParameterValue event whose id does not
reference an existing parameter, or that is structurally invalid (decoding
fails: missing identifier, non-numeric value, wrong event shape), the
handler mutates no parameter value and returns the empty value. -/
theorem setParameterValue_invalid_rejected (ps : List ℚ) (e : ChocValue)
    (h : decodeSetParam e = none ∨
      ∃ i v, decodeSetParam e = some (i, v) ∧
        ¬(0 ≤ i ∧ i.toNat < ps.length)) :
    handleSetParameterValueEvent ps e = (ps, ChocValue.voidVal) := by
  rcases h with hd | ⟨i, v, hd, hc⟩
  · simp [handleSetParameterValueEvent, hd]
  · simp [handleSetParameterValueEvent, hd, hc]

theorem setParameterValue_invalid_rejected_witness :
    handleSetParameterValueEvent [1/2] (mkSetParameterValueEvent 1 (1/4)) =
      ([1/2], ChocValue.voidVal) :=
  setParameterValue_invalid_rejected [1/2] (mkSetParameterValueEvent 1 (1/4))
    (Or.inr ⟨1, 1/4, decodeSetParam_mk 1 (1/4), by decide⟩)

/-- Claim C4: for every incoming structured message whose type tag is not a
recognized event type, the message is ignored, not treated as an error:
dispatch leaves the whole editor state (parameter state and renderer state
included) unchanged and returns the empty value. -/
theorem unknown_type_ignored (st : WebViewEditorState) (msg : ChocValue)
    (h : hasRecognizedType msg = false) :
    dispatchMessage st msg = (st, ChocValue.voidVal) := by
  unfold hasRecognizedType at h
  unfold dispatchMessage
  split
  · rename_i t heq
    rw [heq] at h
    simp only [recognizedEventTypes, List.contains_cons, List.contains_nil,
      Bool.or_false, beq_iff_eq] at h
    rw [if_neg (by simpa using h)]
  · rfl

theorem unknown_type_ignored_witness :
    dispatchMessage sampleState
        (ChocValue.objVal [("type", ChocValue.strVal "bogusType")]) =
      (sampleState, ChocValue.voidVal) :=
  unknown_type_ignored sampleState
    (ChocValue.objVal [("type", ChocValue.strVal "bogusType")]) rfl

/-- Claim C5: after any sequence of host-driven resize calls ending at width
W and height H, the platform container's reported bounds equal (0,0,W,H)
exactly, with no residual stale bounds from a prior resize. -/
theorem resize_bounds_exact (st : WebViewEditorState)
    (seq : List (Int × Int)) (W H : Int) (_hW : 0 < W) (_hH : 0 < H) :
    ((seq ++ [(W, H)]).foldl (fun s p => setSize s p.1 p.2)
        st).containerBounds = ⟨0, 0, W, H⟩ := by
  rw [List.foldl_append]
  simp [setSize, resized]

theorem resize_bounds_exact_witness :
    ((([(100, 100), (320, 240)] ++ [(640, 480)] : List (Int × Int))).foldl
        (fun s p => setSize s p.1 p.2) sampleState).containerBounds =
      ⟨0, 0, 640, 480⟩ :=
  resize_bounds_exact sampleState [(100, 100), (320, 240)] 640 480
    (by decide) (by decide)

/-- Claim C6: if construction fails (renderer cannot be created, asset
location invalid, or platform container cannot attach), the failure is
surfaced to the caller as a hard construction error: the result is an
error carrying no editor state, so no partially constructed renderer or
container remains reachable. -/
theorem construction_failure_all_or_nothing (env : ConstructEnv)
    (procParams : List ℚ) (assetDirectory : String) (width height : Int)
    (hfail : env.rendererAvailable = false ∨ env.assetLocationValid = false ∨
      env.containerCanAttach = false) :
    ∃ e, construct env procParams assetDirectory width height =
      Except.error e := by
  unfold construct
  split
  · exact ⟨ConstructError.rendererCreationFailed, rfl⟩
  · split
    · exact ⟨ConstructError.invalidAssetLocation, rfl⟩
    · split
      · exact ⟨ConstructError.containerAttachFailed, rfl⟩
      · rename_i h1 h2 h3
        rcases hfail with hf | hf | hf
        · exact absurd hf h1
        · exact absurd hf h2
        · exact absurd hf h3

theorem construction_failure_all_or_nothing_witness :
    ∃ e, construct ⟨true, false, true⟩ [1/2] "missing" 640 480 =
      Except.error e :=
  construction_failure_all_or_nothing ⟨true, false, true⟩ [1/2] "missing"
    640 480 (Or.inr (Or.inl rfl))

/-- Claim C7: for every editor whose construction has succeeded,
getWebViewPtr returns a non-null pointer to the live renderer instance. -/
theorem getWebViewPtr_nonnull (env : ConstructEnv) (procParams : List ℚ)
    (assetDirectory : String) (width height : Int)
    (st : WebViewEditorState)
    (hok : construct env procParams assetDirectory width height =
      Except.ok st) :
    ∃ r, getWebViewPtr st = some r := by
  unfold construct at hok
  split at hok
  · cases hok
  · split at hok
    · cases hok
    · split at hok
      · cases hok
      · injection hok with h
        subst h
        exact ⟨⟨assetDirectory⟩, rfl⟩

theorem getWebViewPtr_nonnull_witness :
    ∃ r, getWebViewPtr
        { params := [1/2]
          webView := some ⟨"assets"⟩
          width := 640
          height := 480
          containerBounds := ⟨0, 0, 640, 480⟩
          rendererState := [] } = some r :=
  getWebViewPtr_nonnull ⟨true, true, true⟩ [1/2] "assets" 640 480 _ rfl

theorem deliverMessage_dead (l : EditorLifecycle) (h : l.alive = false)
    (msg : ChocValue) : deliverMessage l msg = l := by
  simp [deliverMessage, h]

theorem foldl_deliverMessage_dead (msgs : List ChocValue)
    (l : EditorLifecycle) (h : l.alive = false) :
    msgs.foldl deliverMessage l = l := by
  induction msgs with
  | nil => rfl
  | cons m ms ih =>
    rw [List.foldl_cons, deliverMessage_dead l h m]
    exact ih

/-- Claim C8: destruction tears down the owned resources in a release
ordering in which the container is destroyed before the renderer (the C++
defaulted destructor destroys members in reverse declaration order, and
webView is declared before viewContainer), and no message delivered at or
after destruction time ever results in a parameter mutation observed after
destruction: the parameters are exactly those held before destruction, and
the editor stays dead. -/
theorem destruction_release_ordering :
    memberDestructionOrder = [Member.viewContainer, Member.webView] ∧
    ∀ (l : EditorLifecycle) (msgs : List ChocValue),
      (msgs.foldl deliverMessage (destroyEditor l)).editor.params =
        l.editor.params ∧
      (msgs.foldl deliverMessage (destroyEditor l)).alive = false := by
  refine ⟨rfl, ?_⟩
  intro l msgs
  rw [foldl_deliverMessage_dead msgs (destroyEditor l) rfl]
  exact ⟨rfl, rfl⟩

/-- Claim C9: the platform container is selected from exactly three
platform-specific container types, one per supported target operating
system (native-view component on macOS, native-window-handle component on
Windows, cross-process embed component on Linux), and the selection is a
function of the build target alone: every build for a supported target has
exactly one container kind. -/
theorem platform_container_selection :
    selectContainer TargetOS.macOS = some ContainerKind.nsViewComponent ∧
    selectContainer TargetOS.windows = some ContainerKind.hwndComponent ∧
    selectContainer TargetOS.linux = some ContainerKind.xEmbedComponent ∧
    ∀ os : TargetOS, os = TargetOS.other ∨
      ∃ k, selectContainer os = some k := by
  refine ⟨rfl, rfl, rfl, ?_⟩
  intro os
  cases os
  · exact Or.inr ⟨ContainerKind.nsViewComponent, rfl⟩
  · exact Or.inr ⟨ContainerKind.hwndComponent, rfl⟩
  · exact Or.inr ⟨ContainerKind.xEmbedComponent, rfl⟩
  · exact Or.inl rfl

/-- Claim C10: a build for any platform other than the three supported ones
selects no container member at all (the preprocessor branch is an explicit
compile-time error, so no such binary exists), while every supported
target does get a container member: there is no runtime fallback or
undefined-container state. -/
theorem unsupported_platform_no_container :
    selectContainer TargetOS.other = none ∧
    ∀ os : TargetOS, os = TargetOS.other ∨
      (selectContainer os).isSome = true := by
  refine ⟨rfl, ?_⟩
  intro os
  cases os
  · exact Or.inr rfl
  · exact Or.inr rfl
  · exact Or.inr rfl
  · exact Or.inl rfl

end VstWebView
